import Mathlib

/-!
Shallow embedding of `install/autodetect.go` from the cilium-cli repository:
flavor-specific validation checks, datapath-mode resolution, and the final
configuration gate (`autodetectAndValidate`).

Pieces defined in the repository outside this file (the `k8s` package's
`Kind` and `Flavor` types, the `Parameters` structure, datapath and
encryption constants, `azureAutodetect`, and the concrete check
implementations) are modelled from the spec; everything else is translated
directly from the source.
-/

namespace Autodetect

/-- Modelled from the spec: the `k8s.Kind` enumeration of cluster flavors
(defined in the repository's `k8s` package, not in this file's source).
The spec calls it a closed-but-extensible enumeration: unknown, local-dev
variant A (minikube), local-dev variant B (kind), managed-cloud EKS-like,
GKE-like and AKS-like; `other` stands for any further flavor covered by the
`default` branch of the source's `switch`. -/
inductive Kind where
  | unknown
  | minikube
  | kind
  | eks
  | gke
  | aks
  | other
  deriving DecidableEq, Repr

/-- Modelled from the spec: the `String()` rendering of a `k8s.Kind`, used
by `%q` in error formatting. The exact strings live in the `k8s` package;
only their existence matters to the claims. -/
def Kind.str : Kind → String
  | .unknown => "unknown"
  | .minikube => "minikube"
  | .kind => "kind"
  | .eks => "EKS"
  | .gke => "GKE"
  | .aks => "AKS"
  | .other => "other"

/-- Modelled from the spec: `k8s.Flavor`, the flavor detector's result —
a `Kind` plus a detector-inferred cluster name. -/
structure Flavor where
  kind : Kind
  clusterName : String
  deriving DecidableEq, Repr

/-- Modelled from the spec: the Azure-specific nested configuration; only
the BYOCNI flag populated by `azureAutodetect` is relevant here. -/
structure AzureParams where
  isBYOCNI : Bool
  deriving DecidableEq, Repr

/-- Modelled from the spec: the subset of the installer's `Parameters`
structure read or written by `autodetect.go` (the structure itself is
defined elsewhere in the repository). -/
structure Parameters where
  disableChecks : List String
  datapathMode : String
  kubeProxyReplacement : String
  clusterName : String
  encryption : String
  ipam : String
  azure : AzureParams
  deriving DecidableEq, Repr

/-- Modelled from the spec: the datapath-mode constant for tunnel mode
(`DatapathTunnel`, defined elsewhere in the repository). -/
def DatapathTunnel : String := "tunnel"

/-- Modelled from the spec: the AWS-ENI datapath constant (`DatapathAwsENI`). -/
def DatapathAwsENI : String := "aws-eni"

/-- Modelled from the spec: the GKE datapath constant (`DatapathGKE`). -/
def DatapathGKE : String := "gke"

/-- Modelled from the spec: the native Azure datapath constant (`DatapathAzure`). -/
def DatapathAzure : String := "azure"

/-- Modelled from the spec: the AKS BYOCNI datapath constant (`DatapathAKSBYOCNI`). -/
def DatapathAKSBYOCNI : String := "aks-byocni"

/-- Modelled from the spec: the encryption constant `encryptionDisabled`. -/
def encryptionDisabled : String := "disabled"

/-- Modelled from the spec: the encryption constant `encryptionIPsec`. -/
def encryptionIPsec : String := "ipsec"

/-- Modelled from the spec: the encryption constant `encryptionWireguard`. -/
def encryptionWireguard : String := "wireguard"

/-- The terminal errors `autodetectAndValidate` can return, one constructor
per distinct `return` of an error in the source, carrying exactly the data
the corresponding Go error value carries:
`providerLookup` is the error propagated unchanged from `azureAutodetect`;
`validationCheck` is `fmt.Errorf("validation check for kind %q failed: %w",
k.flavor.Kind, err)` — the flavor kind plus the wrapped check error;
`clusterNameDots` is `"invalid cluster name, dots are not allowed"`;
`clusterNamePattern` is `"invalid cluster name"`;
`invalidEncryption` is `"invalid encryption mode"`. -/
inductive InstallError where
  | providerLookup (msg : String)
  | validationCheck (k : Kind) (wrapped : String)
  | clusterNameDots
  | clusterNamePattern
  | invalidEncryption
  deriving DecidableEq, Repr

/-- The error string each `InstallError` renders to, following the
`fmt.Errorf` format strings in the source (`%q` quotes the kind;
the provider-lookup error is returned as-is). -/
def InstallError.message : InstallError → String
  | .providerLookup m => m
  | .validationCheck k w =>
      "validation check for kind \"" ++ k.str ++ "\" failed: " ++ w
  | .clusterNameDots => "invalid cluster name, dots are not allowed"
  | .clusterNamePattern => "invalid cluster name"
  | .invalidEncryption => "invalid encryption mode"

/-- A character matched by the regex class `[a-z0-9]`. -/
def isLowerAlnum (c : Char) : Bool :=
  ('a' ≤ c && c ≤ 'z') || ('0' ≤ c && c ≤ '9')

/-- A character matched by the regex class `[-a-z0-9]`. -/
def isDashLowerAlnum (c : Char) : Bool :=
  c = '-' || isLowerAlnum c

/-- The language of the regex fragment `[-a-z0-9]*[a-z0-9]`: a nonempty
string whose last character is in `[a-z0-9]` and whose earlier characters
are in `[-a-z0-9]`. -/
def tailMatch : List Char → Bool
  | [] => false
  | [c] => isLowerAlnum c
  | c :: rest => isDashLowerAlnum c && tailMatch rest

/-- `clusterNameValidation.MatchString` from the source: full match of the
anchored regex `^[a-z0-9]([-a-z0-9]*[a-z0-9])$` — one `[a-z0-9]` character
followed by a nonempty `[-a-z0-9]*[a-z0-9]` group (so at least two
characters in total). -/
def clusterNameValidation (s : String) : Bool :=
  match s.data with
  | [] => false
  | c :: rest => isLowerAlnum c && tailMatch rest

/-- `strings.Contains(name, ".")` as used by the dot check. -/
def containsDot (s : String) : Bool :=
  s.data.contains '.'

/-- `strings.ReplaceAll(name, "_", "-")`: the underscore-to-hyphen
normalization applied when adopting the detector-supplied cluster name. -/
def normalizeName (s : String) : String :=
  ⟨s.data.map (fun c => if c = '_' then '-' else c)⟩

/-- `Parameters.checkDisabled` from the source: linear scan of
`DisableChecks` for an exact name match. -/
def Parameters.checkDisabled (p : Parameters) (name : String) : Bool :=
  p.disableChecks.any (fun n => n == name)

/-- Modelled from the spec: one registered validation check as it behaves
in a single run — its stable `Name()` and the error `Check(ctx, k)` returns
in that run (`none` = nil error). The three concrete check implementations
(`minikubeVersionValidation`, `kindVersionValidation`,
`azureVersionValidation`) live elsewhere in the repository, so their names
and outcomes are abstract inputs here. -/
structure VCheck where
  name : String
  result : Option String
  deriving DecidableEq, Repr

/-- Modelled from the spec: the external behavior feeding one run — the
outcome of each of the three registered checks and of the fallible
`azureAutodetect` BYOCNI lookup (`Except.ok b` sets `Azure.IsBYOCNI = b`,
`Except.error e` aborts datapath resolution). -/
structure Env where
  minikubeCheck : VCheck
  kindCheck : VCheck
  azureCheck : VCheck
  azureLookup : Except String Bool
  deriving Repr

/-- `validationChecks` from the source: the static registry mapping a
`Kind` to its ordered check list; `minikube`, `kind` and `AKS` each have
one registered check, every other kind has none. -/
def validationChecks (env : Env) : Kind → List VCheck
  | .minikube => [env.minikubeCheck]
  | .kind => [env.kindCheck]
  | .aks => [env.azureCheck]
  | _ => []

/-- The check-running loop of `autodetectAndValidate`, over the detected
flavor's check list: skip a check whose name is disabled, otherwise invoke
it and record the invocation; on the first check error stop and return the
wrapped error. Returns the names of the checks actually invoked (the loop's
observable `Check` calls) and the loop's outcome. -/
def runChecks (p : Parameters) (k : Kind) : List VCheck → List String × Option InstallError
  | [] => ([], none)
  | c :: rest =>
    if p.checkDisabled c.name then
      runChecks p k rest
    else
      match c.result with
      | some e => ([c.name], some (.validationCheck k e))
      | none =>
        let r := runChecks p k rest
        (c.name :: r.1, r.2)

/-- `detectDatapathMode` from the source. State passing replaces the
in-place mutation of `k.params`; the result pairs the updated parameters
with the returned error (`none` = nil). `azureAutodetect` is the
provider-specific lookup from `env`. -/
def detectDatapathMode (env : Env) (flavor : Flavor) (withKPR : Bool)
    (p : Parameters) : Parameters × Option InstallError :=
  if p.datapathMode ≠ "" then
    (p, none)
  else
    match flavor.kind with
    | .kind =>
      let p := { p with datapathMode := DatapathTunnel }
      let p := if withKPR && p.kubeProxyReplacement = "" then
          { p with kubeProxyReplacement := "disabled" }
        else p
      (p, none)
    | .minikube => ({ p with datapathMode := DatapathTunnel }, none)
    | .eks => ({ p with datapathMode := DatapathAwsENI }, none)
    | .gke => ({ p with datapathMode := DatapathGKE }, none)
    | .aks =>
      match env.azureLookup with
      | .error e => (p, some (.providerLookup e))
      | .ok byocni =>
        let p := { p with azure := { isBYOCNI := byocni } }
        let p := { p with datapathMode :=
          if p.azure.isBYOCNI then DatapathAKSBYOCNI else DatapathAzure }
        let p := if withKPR && p.kubeProxyReplacement = "" then
            { p with kubeProxyReplacement := "disabled" }
          else p
        (p, none)
    | _ => ({ p with datapathMode := DatapathTunnel }, none)

/-- The cluster-name checks of the configuration gate, in source order:
the dot check first (its own distinct error), then the regex match. -/
def clusterNameGate (name : String) : Option InstallError :=
  if containsDot name then some .clusterNameDots
  else if !clusterNameValidation name then some .clusterNamePattern
  else none

/-- The encryption `switch` of the configuration gate: the three constants
are accepted, everything else returns the invalid-encryption-mode error. -/
def encryptionGate (e : String) : Option InstallError :=
  if e = encryptionDisabled || e = encryptionIPsec || e = encryptionWireguard then none
  else some .invalidEncryption

/-- The cluster-name adoption step of `autodetectAndValidate`: when the
user supplied no cluster name and the detector inferred a non-empty one,
adopt the detector's name with underscores replaced by hyphens. -/
def adoptName (flavor : Flavor) (p : Parameters) : Parameters :=
  if p.clusterName = "" then
    if flavor.clusterName ≠ "" then
      { p with clusterName := normalizeName flavor.clusterName }
    else p
  else p

/-- The outcome of one `autodetectAndValidate` run: the final state of the
(in Go, mutated-in-place) parameters, the names of the validation checks
actually invoked, and the returned error (`none` = success). -/
structure RunResult where
  params : Parameters
  invoked : List String
  error : Option InstallError
  deriving DecidableEq, Repr

/-- `autodetectAndValidate` from the source. The flavor detector's result
is the `flavor` argument (in Go, `k.autodetect(ctx)` stores it on the
installer; the detector is an external collaborator that never fails).
Stages in source order: run the registered checks, adopt the detector's
cluster name (normalized) when the user supplied none, resolve the
datapath mode (`withKPR = true`), then the dot check, the regex check and
the encryption switch; the first error is returned and ends the run. -/
def autodetectAndValidate (env : Env) (flavor : Flavor) (p : Parameters) : RunResult :=
  let r := runChecks p flavor.kind (validationChecks env flavor.kind)
  match r.2 with
  | some e => ⟨p, r.1, some e⟩
  | none =>
    let p := adoptName flavor p
    match detectDatapathMode env flavor true p with
    | (p, some e) => ⟨p, r.1, some e⟩
    | (p, none) =>
      match clusterNameGate p.clusterName with
      | some e => ⟨p, r.1, some e⟩
      | none =>
        match encryptionGate p.encryption with
        | some e => ⟨p, r.1, some e⟩
        | none => ⟨p, r.1, none⟩

end Autodetect

namespace Autodetect

/-- A fixture environment in which all three registered checks pass and the
BYOCNI lookup reports `false`. -/
def env0 : Env :=
  ⟨⟨"minikube-version", none⟩, ⟨"kind-version", none⟩, ⟨"azure-version", none⟩,
    Except.ok false⟩

/-- A fixture parameter set: nothing pre-set by the caller except a valid
encryption mode. -/
def pBase : Parameters := ⟨[], "", "", "", "disabled", "", ⟨false⟩⟩

/-- A fixture parameter set with datapath mode, proxy replacement and
cluster name all pre-set by the caller. -/
def pSet : Parameters :=
  ⟨[], "native-routing", "strict", "tester", "disabled", "", ⟨false⟩⟩

/-- A fixture environment whose BYOCNI lookup fails. -/
def envAzErr : Env := { env0 with azureLookup := .error "azure api down" }

/-- A fixture environment whose minikube check fails with an error message
that does not mention the check's name. -/
def envFail : Env := { env0 with minikubeCheck := ⟨"minimum-version", some "boom"⟩ }

/-- Like `envFail` but with a different name on the failing check and the
same check error, to show the returned error cannot depend on the name. -/
def envFailRenamed : Env := { env0 with minikubeCheck := ⟨"other-name", some "boom"⟩ }

/-- C1 counterexample: the claim says the gate accepts the single-character
name `"a"`, but the regex `^[a-z0-9]([-a-z0-9]*[a-z0-9])$` requires at
least two characters, so a run that is otherwise fully valid fails with the
pattern-mismatch error on `"a"`. -/
theorem C1_counterexample :
    (autodetectAndValidate env0 ⟨.unknown, ""⟩
      { pBase with clusterName := "a" }).error
      = some .clusterNamePattern ∧
    clusterNameValidation "a" = false := by
  constructor
  · rfl
  · rfl

/-- C1 (amended): the cluster-name acceptance table of the configuration
gate inside `autodetectAndValidate`: `"my-cluster"` is accepted;
`"My-Cluster"`, `"-abc"`, `"abc-"` and the single-character `"a"` (the
pattern requires at least two characters) are rejected with the
pattern-mismatch error; `"ab.cd"` is rejected with the dot-specific error,
which is distinct from the pattern-mismatch error. -/
theorem C1_cluster_name_table :
    (autodetectAndValidate env0 ⟨.unknown, ""⟩
      { pBase with clusterName := "my-cluster" }).error = none ∧
    (autodetectAndValidate env0 ⟨.unknown, ""⟩
      { pBase with clusterName := "a" }).error = some .clusterNamePattern ∧
    (autodetectAndValidate env0 ⟨.unknown, ""⟩
      { pBase with clusterName := "My-Cluster" }).error = some .clusterNamePattern ∧
    (autodetectAndValidate env0 ⟨.unknown, ""⟩
      { pBase with clusterName := "-abc" }).error = some .clusterNamePattern ∧
    (autodetectAndValidate env0 ⟨.unknown, ""⟩
      { pBase with clusterName := "abc-" }).error = some .clusterNamePattern ∧
    (autodetectAndValidate env0 ⟨.unknown, ""⟩
      { pBase with clusterName := "ab.cd" }).error = some .clusterNameDots ∧
    InstallError.clusterNameDots ≠ InstallError.clusterNamePattern := by
  refine ⟨rfl, rfl, rfl, rfl, rfl, rfl, ?_⟩
  decide

/-- C9: the encryption gate of `autodetectAndValidate` succeeds exactly on
the three values `disabled`, `ipsec`, `wireguard`; every other string is
rejected with the invalid-encryption-mode error, including `"aes"` and
differently-cased variants, as witnessed end to end. -/
theorem C9_encryption_gate :
    (∀ e : String, encryptionGate e = none ↔
      (e = encryptionDisabled ∨ e = encryptionIPsec ∨ e = encryptionWireguard)) ∧
    (∀ e : String, encryptionGate e ≠ none → encryptionGate e = some .invalidEncryption) ∧
    (autodetectAndValidate env0 ⟨.unknown, ""⟩
      { pBase with clusterName := "my-cluster", encryption := "disabled" }).error = none ∧
    (autodetectAndValidate env0 ⟨.unknown, ""⟩
      { pBase with clusterName := "my-cluster", encryption := "ipsec" }).error = none ∧
    (autodetectAndValidate env0 ⟨.unknown, ""⟩
      { pBase with clusterName := "my-cluster", encryption := "wireguard" }).error = none ∧
    (autodetectAndValidate env0 ⟨.unknown, ""⟩
      { pBase with clusterName := "my-cluster", encryption := "aes" }).error
        = some .invalidEncryption ∧
    (autodetectAndValidate env0 ⟨.unknown, ""⟩
      { pBase with clusterName := "my-cluster", encryption := "Disabled" }).error
        = some .invalidEncryption ∧
    (autodetectAndValidate env0 ⟨.unknown, ""⟩
      { pBase with clusterName := "my-cluster", encryption := "IPsec" }).error
        = some .invalidEncryption ∧
    (autodetectAndValidate env0 ⟨.unknown, ""⟩
      { pBase with clusterName := "my-cluster", encryption := "WireGuard" }).error
        = some .invalidEncryption := by
  refine ⟨?_, ?_, rfl, rfl, rfl, rfl, rfl, rfl, rfl⟩
  · intro e
    unfold encryptionGate
    split
    · rename_i h
      simp only [Bool.or_eq_true, decide_eq_true_eq] at h
      exact iff_of_true rfl (by tauto)
    · rename_i h
      simp only [Bool.or_eq_true, decide_eq_true_eq] at h
      exact iff_of_false (by simp) (by tauto)
  · intro e h
    unfold encryptionGate at h ⊢
    split at h
    · exact absurd rfl h
    · rename_i hc
      simp [hc]

/-- C9 witness: the second conjunct applied at the concrete rejected
value `"aes"`. -/
theorem C9_encryption_gate_witness :
    encryptionGate "aes" = some .invalidEncryption :=
  C9_encryption_gate.2.1 "aes" (by decide)

end Autodetect

namespace Autodetect

/-- If the user pre-set the datapath mode, `detectDatapathMode` returns at
once: no parameter changes and no error. -/
theorem detect_preset (env : Env) (f : Flavor) (kpr : Bool) (p : Parameters)
    (h : p.datapathMode ≠ "") : detectDatapathMode env f kpr p = (p, none) := by
  simp [detectDatapathMode, h]

/-- `detectDatapathMode` never touches the cluster name. -/
theorem detect_clusterName_eq (env : Env) (f : Flavor) (kpr : Bool) (p : Parameters) :
    (detectDatapathMode env f kpr p).1.clusterName = p.clusterName := by
  unfold detectDatapathMode
  dsimp only
  repeat' split
  all_goals rfl

/-- `detectDatapathMode` never overwrites a non-empty proxy-replacement
setting. -/
theorem detect_kpr_preserved (env : Env) (f : Flavor) (kpr : Bool) (p : Parameters)
    (h : p.kubeProxyReplacement ≠ "") :
    (detectDatapathMode env f kpr p).1.kubeProxyReplacement = p.kubeProxyReplacement := by
  unfold detectDatapathMode
  dsimp only
  repeat' split
  all_goals first
    | rfl
    | simp_all

/-- When `detectDatapathMode` returns an error, the parameters are
untouched. -/
theorem detect_err_state (env : Env) (f : Flavor) (kpr : Bool) (p : Parameters)
    (e : InstallError) (h : (detectDatapathMode env f kpr p).2 = some e) :
    (detectDatapathMode env f kpr p).1 = p := by
  unfold detectDatapathMode at h ⊢
  dsimp only at h ⊢
  repeat' split at h
  all_goals repeat' split
  all_goals simp_all

/-- When `detectDatapathMode` succeeds, the datapath mode is non-empty
afterwards. -/
theorem detect_ok_nonempty (env : Env) (f : Flavor) (kpr : Bool) (p : Parameters)
    (h : (detectDatapathMode env f kpr p).2 = none) :
    (detectDatapathMode env f kpr p).1.datapathMode ≠ "" := by
  unfold detectDatapathMode at h ⊢
  dsimp only at h ⊢
  repeat' split at h
  all_goals repeat' split
  all_goals simp_all [DatapathTunnel, DatapathAwsENI, DatapathGKE,
    DatapathAzure, DatapathAKSBYOCNI]

/-- When the check stage fails, `autodetectAndValidate` returns the check
error with the parameters untouched. -/
theorem ad_checks_fail (env : Env) (f : Flavor) (p : Parameters) (e : InstallError)
    (h : (runChecks p f.kind (validationChecks env f.kind)).2 = some e) :
    autodetectAndValidate env f p
      = ⟨p, (runChecks p f.kind (validationChecks env f.kind)).1, some e⟩ := by
  unfold autodetectAndValidate
  dsimp only
  rw [h]

/-- When the check stage passes and datapath resolution fails, the run
returns the resolution error with the state the resolver left behind. -/
theorem ad_datapath_fail (env : Env) (f : Flavor) (p q : Parameters) (e : InstallError)
    (h1 : (runChecks p f.kind (validationChecks env f.kind)).2 = none)
    (h2 : detectDatapathMode env f true (adoptName f p) = (q, some e)) :
    autodetectAndValidate env f p
      = ⟨q, (runChecks p f.kind (validationChecks env f.kind)).1, some e⟩ := by
  unfold autodetectAndValidate
  dsimp only
  rw [h1, h2]

/-- When the check stage and datapath resolution both succeed, the run ends
in the configuration gate: the final parameters are the resolver's output
and the error is the first gate failure, if any. -/
theorem ad_all_ok (env : Env) (f : Flavor) (p q : Parameters)
    (h1 : (runChecks p f.kind (validationChecks env f.kind)).2 = none)
    (h2 : detectDatapathMode env f true (adoptName f p) = (q, none)) :
    autodetectAndValidate env f p
      = ⟨q, (runChecks p f.kind (validationChecks env f.kind)).1,
          match clusterNameGate q.clusterName with
          | some e => some e
          | none => encryptionGate q.encryption⟩ := by
  unfold autodetectAndValidate
  dsimp only
  rw [h1, h2]
  rcases hg : clusterNameGate q.clusterName with _ | e
  · rcases he : encryptionGate q.encryption with _ | e'
    · simp [hg, he]
    · simp [hg, he]
  · simp [hg]

/-- A one-check list in which the check passes leaves the loop error-free. -/
theorem runChecks_single_ok (p : Parameters) (k : Kind) (c : VCheck)
    (h : c.result = none) : (runChecks p k [c]).2 = none := by
  unfold runChecks
  dsimp only
  split
  · rfl
  · simp [h, runChecks]


/-- C2: user precedence — a caller-supplied `DatapathMode` or
`KubeProxyReplacement` is never overwritten by `detectDatapathMode`, and a
caller-supplied `ClusterName` survives the adoption step (and the whole
`autodetectAndValidate` run) unchanged, for every environment and flavor. -/
theorem C2_user_precedence (env : Env) (f : Flavor) (withKPR : Bool) (p : Parameters) :
    (p.datapathMode ≠ "" →
      (detectDatapathMode env f withKPR p).1.datapathMode = p.datapathMode) ∧
    (p.kubeProxyReplacement ≠ "" →
      (detectDatapathMode env f withKPR p).1.kubeProxyReplacement
        = p.kubeProxyReplacement) ∧
    (p.clusterName ≠ "" →
      (autodetectAndValidate env f p).params.clusterName = p.clusterName) := by
  refine ⟨fun h => ?_, fun h => detect_kpr_preserved env f withKPR p h, fun h => ?_⟩
  · rw [detect_preset env f withKPR p h]
  · have hadopt : adoptName f p = p := by simp [adoptName, h]
    rcases h2 : (runChecks p f.kind (validationChecks env f.kind)).2 with _ | e
    · rcases h3 : detectDatapathMode env f true (adoptName f p) with ⟨q, e1⟩
      have hq : q.clusterName = p.clusterName := by
        have hcl := detect_clusterName_eq env f true (adoptName f p)
        rw [h3] at hcl
        rw [hcl, hadopt]
      cases e1 with
      | none =>
        rw [ad_all_ok env f p q h2 h3]
        exact hq
      | some e =>
        rw [ad_datapath_fail env f p q e h2 h3]
        exact hq
    · rw [ad_checks_fail env f p e h2]

/-- C2 witness: with all three fields pre-set (`pSet`), resolution on the
local-dev variant B flavor changes none of them. -/
theorem C2_user_precedence_witness :
    (detectDatapathMode env0 ⟨.kind, ""⟩ true pSet).1.datapathMode = pSet.datapathMode ∧
    (detectDatapathMode env0 ⟨.kind, ""⟩ true pSet).1.kubeProxyReplacement
      = pSet.kubeProxyReplacement ∧
    (autodetectAndValidate env0 ⟨.kind, ""⟩ pSet).params.clusterName
      = pSet.clusterName := by
  have h := C2_user_precedence env0 ⟨.kind, ""⟩ true pSet
  exact ⟨h.1 (by decide), h.2.1 (by decide), h.2.2 (by decide)⟩

/-- C4: datapath resolution is idempotent — rerunning `detectDatapathMode`
on its own output is a no-op, and on any state whose `DatapathMode` is
already non-empty a pass succeeds and changes nothing. -/
theorem C4_resolution_idempotent (env : Env) (f : Flavor) (kpr : Bool) (p : Parameters) :
    detectDatapathMode env f kpr (detectDatapathMode env f kpr p).1
      = detectDatapathMode env f kpr p ∧
    (p.datapathMode ≠ "" → detectDatapathMode env f kpr p = (p, none)) := by
  constructor
  · rcases h2 : (detectDatapathMode env f kpr p).2 with _ | e
    · have hb := detect_ok_nonempty env f kpr p h2
      rw [detect_preset env f kpr _ hb]
      exact Prod.ext_iff.mpr ⟨rfl, h2.symm⟩
    · have ha := detect_err_state env f kpr p e h2
      rw [ha]
  · exact detect_preset env f kpr p

/-- C4 witness: concrete idempotence on the GKE-like flavor from a blank
state, and a no-op pass on a pre-set state. -/
theorem C4_resolution_idempotent_witness :
    detectDatapathMode env0 ⟨.gke, ""⟩ true
        (detectDatapathMode env0 ⟨.gke, ""⟩ true pBase).1
      = detectDatapathMode env0 ⟨.gke, ""⟩ true pBase ∧
    detectDatapathMode env0 ⟨.gke, ""⟩ true pSet = (pSet, none) :=
  ⟨(C4_resolution_idempotent env0 ⟨.gke, ""⟩ true pBase).1,
   (C4_resolution_idempotent env0 ⟨.gke, ""⟩ true pSet).2 (by decide)⟩

/-- C3: the flavor decision table with `DatapathMode` unset: local-dev
variant B (kind) resolves to tunnel and sets proxy replacement to
`disabled` when unset; minikube to tunnel; the EKS-like flavor to AWS ENI;
the GKE-like flavor to GKE; unknown and any other flavor to tunnel — and
none of the latter five touch `KubeProxyReplacement`. -/
theorem C3_flavor_defaults (env : Env) (cn : String) (p : Parameters)
    (h : p.datapathMode = "") :
    ((detectDatapathMode env ⟨.kind, cn⟩ true p).2 = none ∧
     (detectDatapathMode env ⟨.kind, cn⟩ true p).1.datapathMode = DatapathTunnel ∧
     (p.kubeProxyReplacement = "" →
       (detectDatapathMode env ⟨.kind, cn⟩ true p).1.kubeProxyReplacement
         = "disabled")) ∧
    ((detectDatapathMode env ⟨.minikube, cn⟩ true p).2 = none ∧
     (detectDatapathMode env ⟨.minikube, cn⟩ true p).1.datapathMode = DatapathTunnel ∧
     (detectDatapathMode env ⟨.minikube, cn⟩ true p).1.kubeProxyReplacement
       = p.kubeProxyReplacement) ∧
    ((detectDatapathMode env ⟨.eks, cn⟩ true p).2 = none ∧
     (detectDatapathMode env ⟨.eks, cn⟩ true p).1.datapathMode = DatapathAwsENI ∧
     (detectDatapathMode env ⟨.eks, cn⟩ true p).1.kubeProxyReplacement
       = p.kubeProxyReplacement) ∧
    ((detectDatapathMode env ⟨.gke, cn⟩ true p).2 = none ∧
     (detectDatapathMode env ⟨.gke, cn⟩ true p).1.datapathMode = DatapathGKE ∧
     (detectDatapathMode env ⟨.gke, cn⟩ true p).1.kubeProxyReplacement
       = p.kubeProxyReplacement) ∧
    ((detectDatapathMode env ⟨.unknown, cn⟩ true p).2 = none ∧
     (detectDatapathMode env ⟨.unknown, cn⟩ true p).1.datapathMode = DatapathTunnel ∧
     (detectDatapathMode env ⟨.unknown, cn⟩ true p).1.kubeProxyReplacement
       = p.kubeProxyReplacement) ∧
    ((detectDatapathMode env ⟨.other, cn⟩ true p).2 = none ∧
     (detectDatapathMode env ⟨.other, cn⟩ true p).1.datapathMode = DatapathTunnel ∧
     (detectDatapathMode env ⟨.other, cn⟩ true p).1.kubeProxyReplacement
       = p.kubeProxyReplacement) := by
  refine ⟨⟨?_, ?_, fun hk => ?_⟩, ⟨?_, ?_, ?_⟩, ⟨?_, ?_, ?_⟩, ⟨?_, ?_, ?_⟩,
    ⟨?_, ?_, ?_⟩, ⟨?_, ?_, ?_⟩⟩
  all_goals simp [detectDatapathMode, h, *]
  all_goals (split <;> rfl)

/-- C3 witness: from a blank state, the kind flavor yields tunnel mode with
proxy replacement `disabled`, and the unknown flavor yields tunnel mode
with proxy replacement untouched. -/
theorem C3_flavor_defaults_witness :
    (detectDatapathMode env0 ⟨.kind, ""⟩ true pBase).1.datapathMode = DatapathTunnel ∧
    (detectDatapathMode env0 ⟨.kind, ""⟩ true pBase).1.kubeProxyReplacement
      = "disabled" ∧
    (detectDatapathMode env0 ⟨.unknown, ""⟩ true pBase).1.datapathMode
      = DatapathTunnel ∧
    (detectDatapathMode env0 ⟨.unknown, ""⟩ true pBase).1.kubeProxyReplacement
      = pBase.kubeProxyReplacement := by
  have h := C3_flavor_defaults env0 "" pBase (by decide)
  exact ⟨h.1.2.1, h.1.2.2 (by decide), h.2.2.2.2.1.2.1, h.2.2.2.2.1.2.2⟩


/-- The adoption step only ever writes the cluster name. -/
theorem adoptName_datapathMode (f : Flavor) (p : Parameters) :
    (adoptName f p).datapathMode = p.datapathMode := by
  unfold adoptName
  repeat' split
  all_goals rfl

/-- The invoked-check names of a run are exactly what the check loop
produced, whatever happens later. -/
theorem ad_invoked (env : Env) (f : Flavor) (p : Parameters) :
    (autodetectAndValidate env f p).invoked
      = (runChecks p f.kind (validationChecks env f.kind)).1 := by
  unfold autodetectAndValidate
  dsimp only
  repeat' split
  all_goals rfl

/-- C5: the AKS-like flavor with `DatapathMode` unset. A failing BYOCNI
lookup makes `detectDatapathMode` return exactly that error with the
parameters (in particular `DatapathMode`) untouched, and makes
`autodetectAndValidate` abort with that error for every parameter state —
including states whose cluster name or encryption mode the later gates
would reject, so neither gate runs. A successful lookup resolves the
BYOCNI-specific mode when BYOCNI is reported and the native Azure mode
otherwise, records the flag, and sets proxy replacement to `disabled` when
it was unset. -/
theorem C5_aks_byocni (env : Env) (cn : String) (p : Parameters)
    (h : p.datapathMode = "") :
    (∀ e, env.azureLookup = .error e →
      detectDatapathMode env ⟨.aks, cn⟩ true p = (p, some (.providerLookup e)) ∧
      (env.azureCheck.result = none →
        (autodetectAndValidate env ⟨.aks, cn⟩ p).error = some (.providerLookup e) ∧
        (autodetectAndValidate env ⟨.aks, cn⟩ p).params.datapathMode = "")) ∧
    (∀ b, env.azureLookup = .ok b →
      (detectDatapathMode env ⟨.aks, cn⟩ true p).2 = none ∧
      (detectDatapathMode env ⟨.aks, cn⟩ true p).1.datapathMode
        = (if b then DatapathAKSBYOCNI else DatapathAzure) ∧
      (detectDatapathMode env ⟨.aks, cn⟩ true p).1.azure.isBYOCNI = b ∧
      (p.kubeProxyReplacement = "" →
        (detectDatapathMode env ⟨.aks, cn⟩ true p).1.kubeProxyReplacement
          = "disabled")) := by
  constructor
  · intro e he
    have hstep : ∀ p' : Parameters, p'.datapathMode = "" →
        detectDatapathMode env ⟨.aks, cn⟩ true p' = (p', some (.providerLookup e)) := by
      intro p' h'
      simp [detectDatapathMode, h', he]
    refine ⟨hstep p h, fun hc => ?_⟩
    have h1 : (runChecks p (Flavor.mk .aks cn).kind
        (validationChecks env (Flavor.mk .aks cn).kind)).2 = none :=
      runChecks_single_ok p .aks env.azureCheck hc
    have h2 : detectDatapathMode env ⟨.aks, cn⟩ true (adoptName ⟨.aks, cn⟩ p)
        = (adoptName ⟨.aks, cn⟩ p, some (.providerLookup e)) := by
      refine hstep _ ?_
      rw [adoptName_datapathMode, h]
    rw [ad_datapath_fail env ⟨.aks, cn⟩ p (adoptName ⟨.aks, cn⟩ p) _ h1 h2]
    exact ⟨rfl, by rw [adoptName_datapathMode]; exact h⟩
  · intro b hb
    refine ⟨?_, ?_, ?_, fun hk => ?_⟩
    all_goals simp [detectDatapathMode, h, hb, *]
    all_goals (split <;> rfl)

/-- C5 witness: a failing lookup aborts the whole run with that error and
leaves the mode unset; a `BYOCNI = false` lookup resolves the native Azure
mode and disables proxy replacement. -/
theorem C5_aks_byocni_witness :
    detectDatapathMode envAzErr ⟨.aks, ""⟩ true pBase
      = (pBase, some (.providerLookup "azure api down")) ∧
    (autodetectAndValidate envAzErr ⟨.aks, ""⟩ pBase).error
      = some (.providerLookup "azure api down") ∧
    (detectDatapathMode env0 ⟨.aks, ""⟩ true pBase).1.datapathMode = DatapathAzure ∧
    (detectDatapathMode env0 ⟨.aks, ""⟩ true pBase).1.kubeProxyReplacement
      = "disabled" := by
  have h1 := C5_aks_byocni envAzErr "" pBase rfl
  have h2 := C5_aks_byocni env0 "" pBase rfl
  have ha := h1.1 "azure api down" rfl
  have hb := h2.2 false rfl
  exact ⟨ha.1, (ha.2 rfl).1, hb.2.1, hb.2.2.2 rfl⟩

/-- C6: any kind other than minikube, kind and AKS — unknown included —
has no registry entry, the check loop on its (empty) list succeeds having
invoked nothing, and a full `autodetectAndValidate` run on that kind
invokes no check. -/
theorem C6_absent_registry (env : Env) (p : Parameters) (cn : String) (k : Kind)
    (h1 : k ≠ .minikube) (h2 : k ≠ .kind) (h3 : k ≠ .aks) :
    validationChecks env k = [] ∧
    runChecks p k (validationChecks env k) = ([], none) ∧
    (autodetectAndValidate env ⟨k, cn⟩ p).invoked = [] := by
  have hv : validationChecks env k = [] := by
    cases k <;> simp_all [validationChecks]
  refine ⟨hv, by rw [hv]; rfl, ?_⟩
  rw [ad_invoked]
  show (runChecks p k (validationChecks env k)).1 = []
  rw [hv]
  rfl

/-- C6 witness: the unknown kind runs zero checks. -/
theorem C6_absent_registry_witness :
    validationChecks env0 .unknown = [] ∧
    runChecks pBase .unknown (validationChecks env0 .unknown) = ([], none) ∧
    (autodetectAndValidate env0 ⟨.unknown, ""⟩ pBase).invoked = [] :=
  C6_absent_registry env0 pBase "" .unknown (by decide) (by decide) (by decide)

/-- C10: when the caller supplies no cluster name and the detector inferred
none, `autodetectAndValidate` never succeeds; and whenever the check stage
and datapath resolution succeed, the failure is precisely the
pattern-mismatch invalid-cluster-name error (the empty name passes the dot
check but cannot match the pattern). -/
theorem C10_empty_name_rejected (env : Env) (f : Flavor) (p : Parameters)
    (h1 : p.clusterName = "") (h2 : f.clusterName = "") :
    (autodetectAndValidate env f p).error.isSome = true ∧
    ((runChecks p f.kind (validationChecks env f.kind)).2 = none →
      (detectDatapathMode env f true p).2 = none →
      (autodetectAndValidate env f p).error = some .clusterNamePattern) := by
  have hadopt : adoptName f p = p := by simp [adoptName, h1, h2]
  have hgate : ∀ q : Parameters,
      (runChecks p f.kind (validationChecks env f.kind)).2 = none →
      detectDatapathMode env f true (adoptName f p) = (q, none) →
      (autodetectAndValidate env f p).error = some .clusterNamePattern := by
    intro q hc hd
    have hqname : q.clusterName = "" := by
      have hcl := detect_clusterName_eq env f true (adoptName f p)
      rw [hd] at hcl
      rw [hcl, hadopt, h1]
    rw [ad_all_ok env f p q hc hd]
    show (match clusterNameGate q.clusterName with
      | some e => some e
      | none => encryptionGate q.encryption) = some InstallError.clusterNamePattern
    rw [hqname]
    rfl
  constructor
  · rcases hc : (runChecks p f.kind (validationChecks env f.kind)).2 with _ | e
    · rcases hd : detectDatapathMode env f true (adoptName f p) with ⟨q, e1⟩
      cases e1 with
      | none => rw [hgate q hc hd]; rfl
      | some e => rw [ad_datapath_fail env f p q e hc hd]; rfl
    · rw [ad_checks_fail env f p e hc]; rfl
  · intro hc hd
    rcases hdm : detectDatapathMode env f true p with ⟨q, e1⟩
    rw [hdm] at hd
    dsimp only at hd
    subst hd
    exact hgate q hc (by rw [hadopt, hdm])

/-- C10 witness: a run with no user cluster name, no detected cluster name
and an otherwise valid configuration fails with the pattern-mismatch
error. -/
theorem C10_empty_name_rejected_witness :
    (autodetectAndValidate env0 ⟨.unknown, ""⟩ pBase).error.isSome = true ∧
    (autodetectAndValidate env0 ⟨.unknown, ""⟩ pBase).error
      = some .clusterNamePattern := by
  have h := C10_empty_name_rejected env0 ⟨.unknown, ""⟩ pBase rfl rfl
  exact ⟨h.1, h.2 rfl rfl⟩


/-- A name on the disable list is never among the invoked checks. -/
theorem runChecks_disabled_skipped (p : Parameters) (k : Kind) (checks : List VCheck) :
    ∀ n ∈ p.disableChecks, n ∉ (runChecks p k checks).1 := by
  intro n hn
  have hdis : p.checkDisabled n = true := by
    simp only [Parameters.checkDisabled, List.any_eq_true, beq_iff_eq]
    exact ⟨n, hn, rfl⟩
  induction checks with
  | nil => simp [runChecks]
  | cons c rest ih =>
    unfold runChecks
    dsimp only
    split
    · exact ih
    · rename_i hcd
      cases hres : c.result with
      | some e =>
        simp only [List.mem_singleton]
        intro hne
        subst hne
        exact hcd (by simpa using hdis)
      | none =>
        simp only [List.mem_cons]
        rintro (hne | hmem)
        · subst hne
          exact hcd (by simpa using hdis)
        · exact ih hmem

/-- Appending a name that matches no check in the list to the disable list
does not change the check loop's behavior. -/
theorem runChecks_disable_append (p : Parameters) (k : Kind) (checks : List VCheck)
    (x : String) (hx : ∀ c ∈ checks, c.name ≠ x) :
    runChecks { p with disableChecks := p.disableChecks ++ [x] } k checks
      = runChecks p k checks := by
  induction checks with
  | nil => rfl
  | cons c rest ih =>
    have hxc : c.name ≠ x := hx c (List.mem_cons_self c rest)
    have hcd : Parameters.checkDisabled { p with disableChecks := p.disableChecks ++ [x] } c.name
        = p.checkDisabled c.name := by
      simp only [Parameters.checkDisabled, List.any_append, List.any_cons,
        List.any_nil, Bool.or_false, beq_iff_eq]
      have hne : ¬x = c.name := fun h => hxc h.symm
      simp [hne]
    have ih' := ih (fun c' hc' => hx c' (List.mem_cons_of_mem c hc'))
    unfold runChecks
    dsimp only
    rw [hcd, ih']


/-- The adoption step commutes with replacing the disable list. -/
theorem adoptName_disable_swap (f : Flavor) (p : Parameters) (d : List String) :
    adoptName f { p with disableChecks := d }
      = { adoptName f p with disableChecks := d } := by
  unfold adoptName
  repeat' split
  all_goals simp_all

/-- Datapath resolution commutes with replacing the disable list: the
resolver never reads it. -/
theorem detect_disable_swap (env : Env) (f : Flavor) (kpr : Bool) (p : Parameters)
    (d : List String) :
    detectDatapathMode env f kpr { p with disableChecks := d }
      = ({ (detectDatapathMode env f kpr p).1 with disableChecks := d },
         (detectDatapathMode env f kpr p).2) := by
  unfold detectDatapathMode
  dsimp only
  repeat' split
  all_goals simp_all


/-- When the check loop gives the same outcome under a replaced disable
list, the whole run gives the same invocations and error; the final
parameters differ only in the disable list itself. -/
theorem ad_disable_swap (env : Env) (f : Flavor) (p : Parameters) (d : List String)
    (hrun : runChecks { p with disableChecks := d } f.kind (validationChecks env f.kind)
      = runChecks p f.kind (validationChecks env f.kind)) :
    autodetectAndValidate env f { p with disableChecks := d }
      = { params := { (autodetectAndValidate env f p).params with disableChecks := d },
          invoked := (autodetectAndValidate env f p).invoked,
          error := (autodetectAndValidate env f p).error } := by
  unfold autodetectAndValidate
  dsimp only
  rw [hrun, adoptName_disable_swap, detect_disable_swap]
  rcases hc : (runChecks p f.kind (validationChecks env f.kind)).2 with _ | e
  · rcases hd : detectDatapathMode env f true (adoptName f p) with ⟨q, e1⟩
    cases e1 with
    | none =>
      rcases hg : clusterNameGate q.clusterName with _ | e2
      · rcases he : encryptionGate q.encryption with _ | e3
        · simp [hg, he]
        · simp [hg, he]
      · simp [hg]
    | some e => rfl
  · rfl


/-- C8: disable-by-name — every name on the disable list is never among
the invoked checks, both for the bare check loop and for a full
`autodetectAndValidate` run; and appending a name matching no registered
check leaves the check loop's result, and the run's invocations and error,
unchanged (a silent no-op, not an error). -/
theorem C8_disable_by_name (env : Env) (f : Flavor) (p : Parameters) (k : Kind)
    (checks : List VCheck) (x : String) :
    (∀ n, n ∈ p.disableChecks → n ∉ (runChecks p k checks).1) ∧
    (∀ n, n ∈ p.disableChecks → n ∉ (autodetectAndValidate env f p).invoked) ∧
    ((∀ c, c ∈ checks → c.name ≠ x) →
      runChecks { p with disableChecks := p.disableChecks ++ [x] } k checks
        = runChecks p k checks) ∧
    ((∀ c, c ∈ validationChecks env f.kind → c.name ≠ x) →
      (autodetectAndValidate env f
          { p with disableChecks := p.disableChecks ++ [x] }).invoked
        = (autodetectAndValidate env f p).invoked ∧
      (autodetectAndValidate env f
          { p with disableChecks := p.disableChecks ++ [x] }).error
        = (autodetectAndValidate env f p).error) := by
  refine ⟨runChecks_disabled_skipped p k checks, fun n hn => ?_,
    runChecks_disable_append p k checks x, fun hx => ?_⟩
  · rw [ad_invoked]
    exact runChecks_disabled_skipped p f.kind (validationChecks env f.kind) n hn
  · have hrun := runChecks_disable_append p f.kind (validationChecks env f.kind) x hx
    rw [ad_disable_swap env f p (p.disableChecks ++ [x]) hrun]
    exact ⟨rfl, rfl⟩

/-- C8 witness: with the minikube check's name on the disable list it is
never invoked, and appending the name of a check nobody registered changes
neither the loop result nor the run's invocations or error. -/
theorem C8_disable_by_name_witness :
    "minikube-version" ∉
      (runChecks { pBase with disableChecks := ["minikube-version"] } .minikube
        (validationChecks env0 .minikube)).1 ∧
    "minikube-version" ∉
      (autodetectAndValidate env0 ⟨.minikube, ""⟩
        { pBase with disableChecks := ["minikube-version"] }).invoked ∧
    runChecks { pBase with disableChecks := ["minikube-version", "no-such-check"] }
        .minikube (validationChecks env0 .minikube)
      = runChecks { pBase with disableChecks := ["minikube-version"] } .minikube
        (validationChecks env0 .minikube) ∧
    (autodetectAndValidate env0 ⟨.minikube, ""⟩
        { pBase with disableChecks := ["minikube-version", "no-such-check"] }).error
      = (autodetectAndValidate env0 ⟨.minikube, ""⟩
        { pBase with disableChecks := ["minikube-version"] }).error := by
  have h := C8_disable_by_name env0 ⟨.minikube, ""⟩
    { pBase with disableChecks := ["minikube-version"] } .minikube
    (validationChecks env0 .minikube) "no-such-check"
  exact ⟨h.1 _ (by decide), h.2.1 _ (by decide),
    h.2.2.1 (by decide), (h.2.2.2 (by decide)).2⟩


/-- C7 counterexample: a failing minikube check named `minimum-version`
with error text `boom` makes the run return the wrapped error
`validation check for kind "minikube" failed: boom` — an error value that
contains the flavor and the check's own error but not the check's name
(the name is not a substring of the message, and renaming the check leaves
the returned error unchanged). -/
theorem C7_counterexample :
    (autodetectAndValidate envFail ⟨.minikube, ""⟩ pBase).error
      = some (.validationCheck .minikube "boom") ∧
    envFail.minikubeCheck.name = "minimum-version" ∧
    envFailRenamed.minikubeCheck.name = "other-name" ∧
    ¬ ("minimum-version".data <:+:
        (InstallError.validationCheck Kind.minikube "boom").message.data) ∧
    (autodetectAndValidate envFailRenamed ⟨.minikube, ""⟩ pBase).error
      = (autodetectAndValidate envFail ⟨.minikube, ""⟩ pBase).error := by
  refine ⟨rfl, rfl, rfl, ?_, rfl⟩
  decide

/-- C7 (amended): when a non-disabled check fails, the loop stops at it —
the invoked checks are exactly the non-disabled ones before it, so nothing
after it runs — and `autodetectAndValidate` returns the check-stage error
with every later stage skipped (the parameters are untouched); the error
identifies the detected flavor and wraps the failing check's own error
(the check's name appears in the logged diagnostics, not in the returned
error value). -/
theorem C7_short_circuit (env : Env) (f : Flavor) (p : Parameters) (k : Kind)
    (pre : List VCheck) (c : VCheck) (post : List VCheck) (e : String) :
    ((∀ c', c' ∈ pre → p.checkDisabled c'.name = true ∨ c'.result = none) →
      p.checkDisabled c.name = false → c.result = some e →
      runChecks p k (pre ++ c :: post)
        = ((pre.filter (fun c' => !p.checkDisabled c'.name)).map VCheck.name
            ++ [c.name],
           some (.validationCheck k e))) ∧
    (∀ err, (runChecks p f.kind (validationChecks env f.kind)).2 = some err →
      autodetectAndValidate env f p
        = ⟨p, (runChecks p f.kind (validationChecks env f.kind)).1, some err⟩) := by
  constructor
  · intro hpre hdis hres
    induction pre with
    | nil =>
      simp [runChecks, hdis, hres]
    | cons c' pre' ih =>
      have hc' := hpre c' (List.mem_cons_self c' pre')
      have hpre' : ∀ x, x ∈ pre' → p.checkDisabled x.name = true ∨ x.result = none :=
        fun x hx => hpre x (List.mem_cons_of_mem c' hx)
      have ih' := ih hpre'
      cases hdis2 : p.checkDisabled c'.name with
      | true =>
        simp [runChecks, hdis2, ih']
      | false =>
        rcases hc' with hd | hr
        · rw [hd] at hdis2
          cases hdis2
        · simp [runChecks, hdis2, hr, ih']
  · intro err herr
    exact ad_checks_fail env f p err herr

/-- C7 witness: with a passing check before it and another check after it,
a failing second check stops the loop — only the first two names are ever
invoked — and end to end the failing minikube check aborts the run with
the wrapped flavor error and untouched parameters. -/
theorem C7_short_circuit_witness :
    runChecks pBase .minikube
        ([⟨"first", none⟩] ++ ⟨"second", some "boom"⟩ :: [⟨"third", some "later"⟩])
      = (["first", "second"], some (.validationCheck .minikube "boom")) ∧
    autodetectAndValidate envFail ⟨.minikube, ""⟩ pBase
      = ⟨pBase, ["minimum-version"], some (.validationCheck .minikube "boom")⟩ := by
  have h := C7_short_circuit envFail ⟨.minikube, ""⟩ pBase .minikube
    [⟨"first", none⟩] ⟨"second", some "boom"⟩ [⟨"third", some "later"⟩] "boom"
  constructor
  · have h1 := h.1 (by decide) (by decide) rfl
    rw [h1]
    rfl
  · have h2 := h.2 (InstallError.validationCheck .minikube "boom") rfl
    rw [h2]
    rfl


/-- C1 witness: the accepted row of the table, end to end. -/
theorem C1_cluster_name_table_witness :
    (autodetectAndValidate env0 ⟨.unknown, ""⟩
      { pBase with clusterName := "my-cluster" }).error = none :=
  C1_cluster_name_table.1

end Autodetect
